import Mathlib

/-!
Verification of the `FinancialAnalysisSystem` notebook
(`examples/FinancialAnalysisSystem.ipynb`).

The notebook defines one class with stub data sources (Python
`random.uniform`), a sentiment call (TextBlob), two chat-completion calls
(OpenAI), and a keyword branch.  We embed it shallowly:

* `random.uniform a b` is modelled as CPython implements it,
  `a + (b - a) * random()`, where the successive outputs of `random()`
  are an abstract stream `Env.rand : Nat → ℚ` (the contract
  `0 ≤ rand n < 1` is taken as a hypothesis where needed);
* `TextBlob(text).sentiment.polarity` and
  `openai.chat.completions.create` are abstract oracles in `Env`,
  returning `Except PyError _` since either library may raise;
* Python `round(x, 2)` is modelled as rounding a rational to the nearest
  multiple of 1/100, ties to even (the binary floating-point
  representation is abstracted away);
* Python number-to-string formatting inside f-strings is abstracted by
  `toString` on `ℚ`; no claim inspects the digits of these strings;
* the instance attributes `stock_data`, `news_sentiment`,
  `economic_indicators` start as empty dicts and are modelled as
  `Option`-valued fields (`none` = still the initial empty dict);
* every external call and every `print` is recorded in an event trace so
  that ordering and effect claims can be stated.

A computation is `PyM α = RunState → Except PyError α × RunState`: the
state (including the trace of prints already performed) survives an
uncaught exception, exactly as in Python.
-/

/-- A Python exception, identified by its rendered message. -/
structure PyError where
  msg : String
deriving DecidableEq, Repr

/-- Result of `fetch_stock_data`: the dict
`{"symbol": symbol, "price": ..., "change": ...}` with exactly these
three keys. -/
structure StockData where
  symbol : String
  price : ℚ
  change : ℚ
deriving DecidableEq, Repr

/-- Result of `fetch_economic_indicators`: the dict with exactly the keys
`gdp_growth`, `unemployment_rate`, `inflation_rate`. -/
structure EconomicIndicators where
  gdp_growth : ℚ
  unemployment_rate : ℚ
  inflation_rate : ℚ
deriving DecidableEq, Repr

/-- One chat message, `{"role": ..., "content": ...}`. -/
structure ChatMessage where
  role : String
  content : String
deriving DecidableEq, Repr

/-- The keyword arguments passed to `openai.chat.completions.create`. -/
structure ChatRequest where
  model : String
  messages : List ChatMessage
  max_tokens : Nat
deriving DecidableEq, Repr

/-- One choice of a chat-completion response. -/
structure ChatChoice where
  message : ChatMessage
deriving DecidableEq, Repr

/-- A chat-completion response: its list of choices. -/
structure ChatResponse where
  choices : List ChatChoice
deriving DecidableEq, Repr

/-- Observable events of one run: external calls and printed lines. -/
inductive Event where
  | fetchStockDataCall (symbol : String)
  | fetchNewsArticlesCall (company : String)
  | analyzeSentimentCall (text : String)
  | fetchEconomicIndicatorsCall
  | chatCompletionCall (req : ChatRequest)
  | executeBuyOrderCall (symbol : String)
  | executeSellOrderCall (symbol : String)
  | printed (line : String)
deriving DecidableEq, Repr

/-- The mutable attributes of a `FinancialAnalysisSystem` instance.
`none` models the initial empty dict `{}` from `__init__`. -/
structure SysState where
  stock_data : Option StockData
  news_sentiment : Option ℚ
  economic_indicators : Option EconomicIndicators
deriving DecidableEq, Repr

/-- Full state threaded through a run: instance attributes, how many
outputs of `random()` have been consumed, and the event trace so far. -/
structure RunState where
  sys : SysState
  rng : Nat
  trace : List Event
deriving DecidableEq, Repr

/-- The state at the start of `run_analysis` on a fresh instance. -/
def initState : RunState :=
  { sys := { stock_data := none, news_sentiment := none,
             economic_indicators := none },
    rng := 0, trace := [] }

/-- The environment: the random stream and the two external libraries. -/
structure Env where
  rand : Nat → ℚ
  polarity : String → Except PyError ℚ
  chat : ChatRequest → Except PyError ChatResponse

/-- Python-style computations: state passing with uncaught exceptions.
The state (in particular the prints already made) survives an error. -/
def PyM (α : Type) : Type := RunState → Except PyError α × RunState

/-- Sequencing of `PyM`: an uncaught exception aborts the rest. -/
def pyBind {α β : Type} (x : PyM α) (f : α → PyM β) : PyM β :=
  fun s =>
    match x s with
    | (Except.error e, s₁) => (Except.error e, s₁)
    | (Except.ok a, s₁) => f a s₁

/-- A pure value in `PyM`. -/
def pyPure {α : Type} (a : α) : PyM α := fun s => (Except.ok a, s)

/-- Raise a Python exception. -/
def pyThrow {α : Type} (e : PyError) : PyM α := fun s => (Except.error e, s)

/-- Run an external-library call: its exception, if any, propagates. -/
def pyLift {α : Type} (x : Except PyError α) : PyM α := fun s => (x, s)

/-- Record an event (an external call or a printed line). -/
def emit (e : Event) : PyM Unit :=
  fun s => (Except.ok (), { s with trace := s.trace ++ [e] })

/-- `print(line)`. -/
def pyPrint (line : String) : PyM Unit := emit (Event.printed line)

/-- Read the current instance state. -/
def getSys : PyM SysState := fun s => (Except.ok s.sys, s)

/-- `self.stock_data = sd`. -/
def setStockData (sd : StockData) : PyM Unit :=
  fun s => (Except.ok (), { s with sys := { s.sys with stock_data := some sd } })

/-- `self.news_sentiment = q`. -/
def setNewsSentiment (q : ℚ) : PyM Unit :=
  fun s => (Except.ok (), { s with sys := { s.sys with news_sentiment := some q } })

/-- `self.economic_indicators = ei`. -/
def setEconomicIndicators (ei : EconomicIndicators) : PyM Unit :=
  fun s => (Except.ok (),
    { s with sys := { s.sys with economic_indicators := some ei } })

/-- Draw the next output of `random.random()` from the stream. -/
def nextRand (env : Env) : PyM ℚ :=
  fun s => (Except.ok (env.rand s.rng), { s with rng := s.rng + 1 })

/-- CPython's `random.uniform(a, b)`: `a + (b - a) * random()`. -/
def randomUniform (env : Env) (a b : ℚ) : PyM ℚ :=
  pyBind (nextRand env) (fun u => pyPure (a + (b - a) * u))

/-- Round a rational to the nearest integer, ties to even (the rounding
mode of Python's `round`). -/
def roundEven (x : ℚ) : ℤ :=
  if x - ⌊x⌋ < 1/2 then ⌊x⌋
  else if 1/2 < x - ⌊x⌋ then ⌊x⌋ + 1
  else if ⌊x⌋ % 2 = 0 then ⌊x⌋ else ⌊x⌋ + 1

/-- Python's `round(x, 2)`: round to the nearest multiple of 1/100,
ties to even. -/
def round2 (x : ℚ) : ℚ := (roundEven (x * 100) : ℚ) / 100

/-- Abstraction of Python's number formatting inside f-strings. -/
def ratStr (q : ℚ) : String := toString q

/-- The method `fetch_stock_data(symbol)`: two `random.uniform` draws,
each rounded to two decimal places. -/
def fetch_stock_data (env : Env) (symbol : String) : PyM StockData :=
  pyBind (emit (Event.fetchStockDataCall symbol)) (fun _ =>
  pyBind (randomUniform env 50 500) (fun p =>
  pyBind (randomUniform env (-5) 5) (fun c =>
  pyPure { symbol := symbol, price := round2 p, change := round2 c })))

/-- The method `fetch_news_articles(company)`: three hard-coded headline
strings.  It uses no randomness and no external service, so it is a pure
function of `company`. -/
def fetch_news_articles (company : String) : List String :=
  [company ++ " announces new product line",
   company ++ " reports quarterly earnings",
   company ++ " faces regulatory scrutiny"]

/-- The method call `fetch_news_articles(company)` as performed inside
the agent, recording the call event. -/
def fetch_news_articlesM (company : String) : PyM (List String) :=
  pyBind (emit (Event.fetchNewsArticlesCall company)) (fun _ =>
  pyPure (fetch_news_articles company))

/-- The method `analyze_sentiment(text)`:
`TextBlob(text).sentiment.polarity`, an external-library call. -/
def analyze_sentiment (env : Env) (text : String) : PyM ℚ :=
  pyBind (emit (Event.analyzeSentimentCall text)) (fun _ =>
  pyLift (env.polarity text))

/-- The method `fetch_economic_indicators()`: three `random.uniform`
draws, each rounded to two decimal places. -/
def fetch_economic_indicators (env : Env) : PyM EconomicIndicators :=
  pyBind (emit Event.fetchEconomicIndicatorsCall) (fun _ =>
  pyBind (randomUniform env (-2) 5) (fun g =>
  pyBind (randomUniform env 3 10) (fun u =>
  pyBind (randomUniform env 0 5) (fun i =>
  pyPure { gdp_growth := round2 g, unemployment_rate := round2 u,
           inflation_rate := round2 i }))))

/-- The prompt built by `analyze_market_conditions` (f-string; number
formatting abstracted by `ratStr`, whitespace preserved in spirit). -/
def marketPrompt (sd : StockData) (sentiment : ℚ)
    (ei : EconomicIndicators) : String :=
  "\n        Analyze the following market conditions and provide a brief market outlook:\n        Stock: "
    ++ sd.symbol ++ " at $" ++ ratStr sd.price ++ " (change: "
    ++ ratStr sd.change ++ "%)\n        News Sentiment: "
    ++ ratStr sentiment ++ "\n        Economic Indicators:\n        - GDP Growth: "
    ++ ratStr ei.gdp_growth ++ "%\n        - Unemployment Rate: "
    ++ ratStr ei.unemployment_rate ++ "%\n        - Inflation Rate: "
    ++ ratStr ei.inflation_rate ++ "%\n        "

/-- The request `analyze_market_conditions` passes to
`openai.chat.completions.create`. -/
def marketRequest (sd : StockData) (sentiment : ℚ)
    (ei : EconomicIndicators) : ChatRequest :=
  { model := "gpt-4-0125-preview",
    messages := [{ role := "user", content := marketPrompt sd sentiment ei }],
    max_tokens := 150 }

/-- The prompt built by `generate_investment_recommendation`. -/
def recommendationPrompt (market_outlook risk_tolerance : String) : String :=
  "\n        Based on the following market outlook and investor risk tolerance,\n        provide a specific investment recommendation:\n        Market Outlook: "
    ++ market_outlook ++ "\n        Investor Risk Tolerance: "
    ++ risk_tolerance ++ "\n        "

/-- The request `generate_investment_recommendation` passes to
`openai.chat.completions.create`. -/
def recommendationRequest (market_outlook risk_tolerance : String) : ChatRequest :=
  { model := "gpt-4-0125-preview",
    messages := [{ role := "user",
                   content := recommendationPrompt market_outlook risk_tolerance }],
    max_tokens := 200 }

/-- Python's `str.strip()`: drop leading and trailing whitespace
(structural implementation on the character list). -/
def pyStrip (s : String) : String :=
  { data := ((s.data.dropWhile Char.isWhitespace).reverse.dropWhile
      Char.isWhitespace).reverse }

/-- The `IndexError` raised by `response.choices[0]` on an empty list. -/
def indexErr : PyError := { msg := "IndexError: list index out of range" }

/-- Perform a chat-completion call and return
`response.choices[0].message.content.strip()`. -/
def chatCall (env : Env) (req : ChatRequest) : PyM String :=
  pyBind (emit (Event.chatCompletionCall req)) (fun _ =>
  pyBind (pyLift (env.chat req)) (fun resp =>
  match resp.choices with
  | [] => pyThrow indexErr
  | c :: _ => pyPure (pyStrip c.message.content)))

/-- The method `analyze_market_conditions(stock_data, sentiment,
economic_indicators)`. -/
def analyze_market_conditions (env : Env) (sd : StockData) (sentiment : ℚ)
    (ei : EconomicIndicators) : PyM String :=
  chatCall env (marketRequest sd sentiment ei)

/-- The method `generate_investment_recommendation(market_outlook,
risk_tolerance)`. -/
def generate_investment_recommendation (env : Env)
    (market_outlook risk_tolerance : String) : PyM String :=
  chatCall env (recommendationRequest market_outlook risk_tolerance)

/-- The `KeyError` raised when reading a key from a still-empty dict. -/
def keyErr : PyError := { msg := "KeyError" }

/-- Read `self.stock_data` as a populated record (a `KeyError` would be
raised on first key access were it still the initial `\x7b\x7d`). -/
def readStockData : PyM StockData :=
  pyBind getSys (fun sys =>
  match sys.stock_data with
  | none => pyThrow keyErr
  | some sd => pyPure sd)

/-- Read `self.news_sentiment` as a number. -/
def readNewsSentiment : PyM ℚ :=
  pyBind getSys (fun sys =>
  match sys.news_sentiment with
  | none => pyThrow keyErr
  | some q => pyPure q)

/-- Read `self.economic_indicators` as a populated record. -/
def readEconomicIndicators : PyM EconomicIndicators :=
  pyBind getSys (fun sys =>
  match sys.economic_indicators with
  | none => pyThrow keyErr
  | some ei => pyPure ei)

/-- Map a `PyM` computation over a list, left to right (the Python list
comprehension `[self.analyze_sentiment(article) for article in ...]`). -/
def pyMapM (f : String → PyM ℚ) : List String → PyM (List ℚ)
  | [] => pyPure []
  | t :: ts =>
      pyBind (f t) (fun q =>
      pyBind (pyMapM f ts) (fun qs =>
      pyPure (q :: qs)))

/-- Sum of a list of rationals (Python `sum`). -/
def ratSum : List ℚ → ℚ
  | [] => 0
  | q :: qs => q + ratSum qs

/-- The method `financial_advisor_agent(stock_symbol, risk_tolerance)`:
the linear pipeline ending in the recommendation string. -/
def financial_advisor_agent (env : Env)
    (stock_symbol risk_tolerance : String) : PyM String :=
  pyBind (fetch_stock_data env stock_symbol) (fun sd =>
  pyBind (setStockData sd) (fun _ =>
  pyBind (fetch_news_articlesM stock_symbol) (fun news_articles =>
  pyBind (pyMapM (analyze_sentiment env) news_articles) (fun sentiment_scores =>
  pyBind (setNewsSentiment (ratSum sentiment_scores / sentiment_scores.length)) (fun _ =>
  pyBind (fetch_economic_indicators env) (fun ei =>
  pyBind (setEconomicIndicators ei) (fun _ =>
  pyBind readStockData (fun sd' =>
  pyBind readNewsSentiment (fun sent' =>
  pyBind readEconomicIndicators (fun ei' =>
  pyBind (analyze_market_conditions env sd' sent' ei') (fun market_outlook =>
  generate_investment_recommendation env market_outlook risk_tolerance)))))))))))

/-- Python's `str.lower()` (structural implementation on the character
list). -/
def pyLower (s : String) : String := { data := s.data.map Char.toLower }

/-- Python's `needle in haystack` on strings: substring containment. -/
def pyIn (needle haystack : String) : Bool :=
  decide (needle.toList <:+: haystack.toList)

/-- Python dict repr of `self.stock_data` as printed by `run_analysis`. -/
def showStockData : Option StockData → String
  | none => "\x7b\x7d"
  | some sd =>
      "\x7b'symbol': '" ++ sd.symbol ++ "', 'price': " ++ ratStr sd.price
        ++ ", 'change': " ++ ratStr sd.change ++ "\x7d"

/-- Repr of `self.news_sentiment` as printed by `run_analysis`. -/
def showNewsSentiment : Option ℚ → String
  | none => "\x7b\x7d"
  | some q => ratStr q

/-- Python dict repr of `self.economic_indicators` as printed. -/
def showEconomicIndicators : Option EconomicIndicators → String
  | none => "\x7b\x7d"
  | some ei =>
      "\x7b'gdp_growth': " ++ ratStr ei.gdp_growth
        ++ ", 'unemployment_rate': " ++ ratStr ei.unemployment_rate
        ++ ", 'inflation_rate': " ++ ratStr ei.inflation_rate ++ "\x7d"

/-- The no-action message of `run_analysis`. -/
def noActionMsg : String := "No action taken based on the current recommendation."

/-- The method `execute_buy_order(symbol)`. -/
def execute_buy_order (symbol : String) : PyM Unit :=
  pyBind (emit (Event.executeBuyOrderCall symbol)) (fun _ =>
  pyPrint ("Executing buy order for " ++ symbol))

/-- The method `execute_sell_order(symbol)`. -/
def execute_sell_order (symbol : String) : PyM Unit :=
  pyBind (emit (Event.executeSellOrderCall symbol)) (fun _ =>
  pyPrint ("Executing sell order for " ++ symbol))

/-- The method `run_analysis(stock_symbol, risk_tolerance)`: obtain the
recommendation, print the analysis, then branch on the keywords. -/
def run_analysis (env : Env) (stock_symbol risk_tolerance : String) : PyM Unit :=
  pyBind (financial_advisor_agent env stock_symbol risk_tolerance) (fun recommendation =>
  pyBind (pyPrint ("\nAnalysis for " ++ stock_symbol ++ ":")) (fun _ =>
  pyBind getSys (fun sys =>
  pyBind (pyPrint ("Stock Data: " ++ showStockData sys.stock_data)) (fun _ =>
  pyBind (pyPrint ("News Sentiment: " ++ showNewsSentiment sys.news_sentiment)) (fun _ =>
  pyBind (pyPrint ("Economic Indicators: "
      ++ showEconomicIndicators sys.economic_indicators)) (fun _ =>
  pyBind (pyPrint ("\nInvestment Recommendation:\n" ++ recommendation)) (fun _ =>
  if pyIn "buy" (pyLower recommendation) then
    execute_buy_order stock_symbol
  else if pyIn "sell" (pyLower recommendation) then
    execute_sell_order stock_symbol
  else
    pyPrint noActionMsg)))))))

/-- First headline returned by `fetch_news_articles`. -/
def headline1 (c : String) : String := c ++ " announces new product line"

/-- Second headline returned by `fetch_news_articles`. -/
def headline2 (c : String) : String := c ++ " reports quarterly earnings"

/-- Third headline returned by `fetch_news_articles`. -/
def headline3 (c : String) : String := c ++ " faces regulatory scrutiny"

/-- The stock record fetched by a run started from `initState`:
`random.uniform` draws consume stream positions 0 and 1. -/
def stockOf (env : Env) (sym : String) : StockData :=
  { symbol := sym,
    price := round2 (50 + (500 - 50) * env.rand 0),
    change := round2 (-5 + (5 - (-5)) * env.rand 1) }

/-- The economic indicators fetched by a run started from `initState`:
`random.uniform` draws consume stream positions 2, 3 and 4. -/
def econOf (env : Env) : EconomicIndicators :=
  { gdp_growth := round2 (-2 + (5 - (-2)) * env.rand 2),
    unemployment_rate := round2 (3 + (10 - 3) * env.rand 3),
    inflation_rate := round2 (0 + (5 - 0) * env.rand 4) }

/-- `sum(sentiment_scores) / len(sentiment_scores)` as computed by the
agent. -/
def sentimentAvg (qs : List ℚ) : ℚ := ratSum qs / qs.length

/-- The five analysis lines printed by `run_analysis` before the branch. -/
def analysisPrints (sym : String) (sys : SysState) (rec : String) : List Event :=
  [Event.printed ("\nAnalysis for " ++ sym ++ ":"),
   Event.printed ("Stock Data: " ++ showStockData sys.stock_data),
   Event.printed ("News Sentiment: " ++ showNewsSentiment sys.news_sentiment),
   Event.printed ("Economic Indicators: " ++ showEconomicIndicators sys.economic_indicators),
   Event.printed ("\nInvestment Recommendation:\n" ++ rec)]

/-- The events produced by the keyword branch of `run_analysis`. -/
def branchTail (sym rec : String) : List Event :=
  if pyIn "buy" (pyLower rec) then
    [Event.executeBuyOrderCall sym,
     Event.printed ("Executing buy order for " ++ sym)]
  else if pyIn "sell" (pyLower rec) then
    [Event.executeSellOrderCall sym,
     Event.printed ("Executing sell order for " ++ sym)]
  else
    [Event.printed noActionMsg]

/-- The contract of `random.random()`: every draw lies in `[0, 1)`. -/
def RandOk (env : Env) : Prop := ∀ n, 0 ≤ env.rand n ∧ env.rand n < 1

/-- A rational with at most two decimal places. -/
def TwoDec (q : ℚ) : Prop := ∃ z : ℤ, q = (z : ℚ) / 100

/-- Concrete chat oracle used by witnesses: the market-outlook call
(`max_tokens = 150`) answers with an outlook, the recommendation call
with a buy recommendation (untrimmed, to exercise `strip()`). -/
def chatMsgW (req : ChatRequest) : ChatMessage :=
  { role := "assistant",
    content := (if req.max_tokens = 150 then "outlook" else " You should Buy now. ") }

/-- Concrete chat oracle used by witnesses. -/
def chatW (req : ChatRequest) : Except PyError ChatResponse :=
  Except.ok { choices := [{ message := chatMsgW req }] }

/-- Concrete witness environment: zero randomness, zero polarity, and
the `chatW` oracle. -/
def envW : Env :=
  { rand := fun _ => 0,
    polarity := fun _ => Except.ok 0,
    chat := chatW }

/-- Chat oracle answering both calls with a text containing both `buy`
and `sell`. -/
def chatBS (_ : ChatRequest) : Except PyError ChatResponse :=
  Except.ok { choices := [{ message := { role := "assistant", content := "First Buy, then Sell." } }] }

/-- Witness environment whose recommendation mentions both keywords. -/
def envBS : Env :=
  { rand := fun _ => 0,
    polarity := fun _ => Except.ok 0,
    chat := chatBS }

/-- The exception raised by the failing sentiment oracle of `envErr`. -/
def sentErr : PyError := { msg := "TextBlob failure" }

/-- Witness environment whose sentiment library raises on every call. -/
def envErr : Env :=
  { rand := fun _ => 0,
    polarity := fun _ => Except.error sentErr,
    chat := chatW }

/-- Boolean test that `s` begins with `p` (Python `str.startswith`). -/
def strBegins (p s : String) : Bool := List.isPrefixOf p.data s.data

/-- A second witness environment differing from `envW` only in the
random stream. -/
def envHalf : Env :=
  { rand := fun _ => 1/2,
    polarity := fun _ => Except.ok 0,
    chat := chatW }

/-- Rounding an integer changes nothing. -/
theorem roundEven_intCast (z : ℤ) : roundEven (z : ℚ) = z := by
  unfold roundEven
  simp [Int.floor_intCast]

/-- Evaluation rule for `round2` when the scaled argument is an
integer. -/
theorem round2_eq_of_mul_intCast (x : ℚ) (z : ℤ) (h : x * 100 = (z : ℚ)) :
    round2 x = (z : ℚ) / 100 := by
  rw [round2, h, roundEven_intCast]

/-- Rounding to the nearest integer never drops below an integer lower
bound of the argument. -/
theorem roundEven_ge (A : ℤ) (x : ℚ) (h : (A : ℚ) ≤ x) : A ≤ roundEven x := by
  have hA : A ≤ ⌊x⌋ := Int.le_floor.mpr h
  unfold roundEven
  split_ifs <;> omega

/-- Rounding to the nearest integer never exceeds an integer upper bound
of the argument. -/
theorem roundEven_le (B : ℤ) (x : ℚ) (h : x ≤ (B : ℚ)) : roundEven x ≤ B := by
  have hfl : (⌊x⌋ : ℚ) ≤ x := Int.floor_le x
  have hB : ⌊x⌋ ≤ B := by
    have := Int.floor_le_floor h
    simpa using this
  unfold roundEven
  split_ifs with h1 h2 h3
  · exact hB
  · have hlt : (⌊x⌋ : ℚ) < (B : ℚ) := by linarith
    have := Int.cast_lt.mp hlt
    omega
  · exact hB
  · have heq : x - ⌊x⌋ = 1/2 := le_antisymm (not_lt.mp h2) (not_lt.mp h1)
    have hlt : (⌊x⌋ : ℚ) < (B : ℚ) := by linarith
    have := Int.cast_lt.mp hlt
    omega

/-- `round2` stays within any integer bounds of its argument. -/
theorem round2_ge (A : ℤ) (x : ℚ) (h : (A : ℚ) ≤ x) : (A : ℚ) ≤ round2 x := by
  have h100 : ((A * 100 : ℤ) : ℚ) ≤ x * 100 := by push_cast; nlinarith
  have hr := roundEven_ge (A * 100) (x * 100) h100
  have hc : ((A * 100 : ℤ) : ℚ) ≤ ((roundEven (x * 100) : ℤ) : ℚ) := by
    exact_mod_cast hr
  unfold round2
  push_cast at hc
  linarith

/-- `round2` stays within any integer bounds of its argument. -/
theorem round2_le (B : ℤ) (x : ℚ) (h : x ≤ (B : ℚ)) : round2 x ≤ (B : ℚ) := by
  have h100 : x * 100 ≤ ((B * 100 : ℤ) : ℚ) := by push_cast; nlinarith
  have hr := roundEven_le (B * 100) (x * 100) h100
  have hc : ((roundEven (x * 100) : ℤ) : ℚ) ≤ ((B * 100 : ℤ) : ℚ) := by
    exact_mod_cast hr
  unfold round2
  push_cast at hc
  linarith

/-- `round2` always produces a value with at most two decimal places. -/
theorem round2_twoDec (x : ℚ) : TwoDec (round2 x) :=
  ⟨roundEven (x * 100), rfl⟩

/-- A `random.uniform a b` draw lies in `[a, b]` when the unit draw lies
in `[0, 1)`. -/
theorem uniform_draw_mem (a b u : ℚ) (hab : a ≤ b) (h0 : 0 ≤ u) (h1 : u < 1) :
    a ≤ a + (b - a) * u ∧ a + (b - a) * u ≤ b := by
  constructor <;> nlinarith

/-- Closed form of one `fetch_stock_data` call. -/
theorem fetch_stock_data_eq (env : Env) (sym : String) (s : RunState) :
    fetch_stock_data env sym s =
      (Except.ok { symbol := sym,
                   price := round2 (50 + (500 - 50) * env.rand s.rng),
                   change := round2 (-5 + (5 - (-5)) * env.rand (s.rng + 1)) },
       { s with rng := s.rng + 1 + 1,
                trace := s.trace ++ [Event.fetchStockDataCall sym] }) := rfl

/-- Closed form of one `fetch_economic_indicators` call. -/
theorem fetch_economic_indicators_eq (env : Env) (s : RunState) :
    fetch_economic_indicators env s =
      (Except.ok { gdp_growth := round2 (-2 + (5 - (-2)) * env.rand s.rng),
                   unemployment_rate := round2 (3 + (10 - 3) * env.rand (s.rng + 1)),
                   inflation_rate := round2 (0 + (5 - 0) * env.rand (s.rng + 1 + 1)) },
       { s with rng := s.rng + 1 + 1 + 1,
                trace := s.trace ++ [Event.fetchEconomicIndicatorsCall] }) := rfl

/-- C9: for every call made with a random stream honouring the
`random.random()` contract, the numeric fields produced by
`fetch_stock_data` and `fetch_economic_indicators` lie within the ranges
requested from `random.uniform` and carry at most two decimal places; in
particular `unemployment_rate` and `inflation_rate` are never
negative. -/
theorem fetch_ranges_and_two_decimals (env : Env) (sym : String) (s : RunState)
    (hrand : RandOk env) :
    (∀ sd s', fetch_stock_data env sym s = (Except.ok sd, s') →
      50 ≤ sd.price ∧ sd.price ≤ 500 ∧ -5 ≤ sd.change ∧ sd.change ≤ 5 ∧
      TwoDec sd.price ∧ TwoDec sd.change) ∧
    (∀ ei s', fetch_economic_indicators env s = (Except.ok ei, s') →
      -2 ≤ ei.gdp_growth ∧ ei.gdp_growth ≤ 5 ∧
      3 ≤ ei.unemployment_rate ∧ ei.unemployment_rate ≤ 10 ∧
      0 ≤ ei.inflation_rate ∧ ei.inflation_rate ≤ 5 ∧
      0 ≤ ei.unemployment_rate ∧
      TwoDec ei.gdp_growth ∧ TwoDec ei.unemployment_rate ∧
      TwoDec ei.inflation_rate) := by
  constructor
  · intro sd s' h
    rw [fetch_stock_data_eq] at h
    simp only [Prod.mk.injEq, Except.ok.injEq] at h
    obtain ⟨hsd, -⟩ := h
    subst hsd
    have hu0 := hrand s.rng
    have hu1 := hrand (s.rng + 1)
    have hp := uniform_draw_mem 50 500 (env.rand s.rng) (by norm_num) hu0.1 hu0.2
    have hc := uniform_draw_mem (-5) 5 (env.rand (s.rng + 1)) (by norm_num) hu1.1 hu1.2
    refine ⟨?_, ?_, ?_, ?_, round2_twoDec _, round2_twoDec _⟩
    · exact_mod_cast round2_ge 50 _ (by exact_mod_cast hp.1)
    · exact_mod_cast round2_le 500 _ (by exact_mod_cast hp.2)
    · exact_mod_cast round2_ge (-5) _ (by push_cast; linarith [hc.1])
    · exact_mod_cast round2_le 5 _ (by exact_mod_cast hc.2)
  · intro ei s' h
    rw [fetch_economic_indicators_eq] at h
    simp only [Prod.mk.injEq, Except.ok.injEq] at h
    obtain ⟨hei, -⟩ := h
    subst hei
    have hu0 := hrand s.rng
    have hu1 := hrand (s.rng + 1)
    have hu2 := hrand (s.rng + 1 + 1)
    have hg := uniform_draw_mem (-2) 5 (env.rand s.rng) (by norm_num) hu0.1 hu0.2
    have hu := uniform_draw_mem 3 10 (env.rand (s.rng + 1)) (by norm_num) hu1.1 hu1.2
    have hi := uniform_draw_mem 0 5 (env.rand (s.rng + 1 + 1)) (by norm_num) hu2.1 hu2.2
    have h3 : (3 : ℚ) ≤ round2 (3 + (10 - 3) * env.rand (s.rng + 1)) := by
      exact_mod_cast round2_ge 3 _ (by exact_mod_cast hu.1)
    refine ⟨?_, ?_, h3, ?_, ?_, ?_, by linarith, round2_twoDec _, round2_twoDec _,
      round2_twoDec _⟩
    · exact_mod_cast round2_ge (-2) _ (by push_cast; linarith [hg.1])
    · exact_mod_cast round2_le 5 _ (by exact_mod_cast hg.2)
    · exact_mod_cast round2_le 10 _ (by exact_mod_cast hu.2)
    · exact_mod_cast round2_ge 0 _ (by exact_mod_cast hi.1)
    · exact_mod_cast round2_le 5 _ (by exact_mod_cast hi.2)

/-- Witness for C9: the bounds hold at the concrete environment `envW`
(all unit draws equal to 0) from the initial state. -/
theorem fetch_ranges_and_two_decimals_witness :
    RandOk envW ∧
    (50 ≤ (stockOf envW "AAPL").price ∧ (stockOf envW "AAPL").price ≤ 500) ∧
    (0 ≤ (econOf envW).unemployment_rate ∧ 0 ≤ (econOf envW).inflation_rate) := by
  have hrand : RandOk envW := fun n => ⟨le_refl 0, by norm_num [envW]⟩
  have h1 := (fetch_ranges_and_two_decimals envW "AAPL" initState hrand).1
    (stockOf envW "AAPL") ((fetch_stock_data envW "AAPL" initState).2) rfl
  have h2 := (fetch_ranges_and_two_decimals envW "AAPL" initState hrand).2
    (econOf envW) ((fetch_economic_indicators envW initState).2) rfl
  exact ⟨hrand, ⟨h1.1, h1.2.1⟩, ⟨h2.2.2.2.2.2.2.1, h2.2.2.2.2.1⟩⟩

/-- A list of characters is a Boolean prefix of itself followed by
anything. -/
theorem isPrefixOf_append_self (l r : List Char) :
    List.isPrefixOf l (l ++ r) = true := by
  induction l with
  | nil => simp [List.isPrefixOf]
  | cons a as ih => simp [List.isPrefixOf, ih]

/-- C10: `fetch_news_articles` is deterministic — it is a pure function
of the company string (it consults neither the random stream nor any
oracle, so two calls with the same argument are equal) — and it returns
exactly three headline strings, each of which begins with the company
string. -/
theorem fetch_news_articles_deterministic (company : String) :
    fetch_news_articles company = fetch_news_articles company ∧
    (fetch_news_articles company).length = 3 ∧
    ∀ h ∈ fetch_news_articles company, strBegins company h = true := by
  refine ⟨rfl, rfl, ?_⟩
  intro h hh
  simp only [fetch_news_articles, List.mem_cons, List.not_mem_nil, or_false] at hh
  rcases hh with rfl | rfl | rfl <;>
    simp [strBegins, String.data_append, isPrefixOf_append_self]

/-- Counterexample to C7: contrary to the claim that no invariant beyond
"a string is returned" can be asserted about any operation's output,
the output of `fetch_news_articles` at the concrete input `"AAPL"` is a
fixed, fully determined list of three strings — the operation does not
depend on the random stream or on the language model at all (it takes no
environment), and its exact output is an assertable invariant. -/
theorem fetch_news_articles_fixed_output :
    fetch_news_articles "AAPL" =
      ["AAPL announces new product line",
       "AAPL reports quarterly earnings",
       "AAPL faces regulatory scrutiny"] ∧
    fetch_news_articlesM "AAPL" initState =
      (Except.ok ["AAPL announces new product line",
                  "AAPL reports quarterly earnings",
                  "AAPL faces regulatory scrutiny"],
       { initState with trace := [Event.fetchNewsArticlesCall "AAPL"] }) := by
  exact ⟨rfl, rfl⟩

/-- C7 as amended: the outputs of the random stubs depend on the random
stream (two environments differing only in the stream give different
stock records), and the LLM-backed methods return whatever the chat
oracle answers, but `fetch_news_articles` is a deterministic function of
its argument whose exact output is an assertable invariant. -/
theorem random_dependence_and_news_invariant :
    (∀ company, fetch_news_articles company =
      [headline1 company, headline2 company, headline3 company]) ∧
    (fetch_stock_data envW "AAPL" initState).1 = Except.ok (stockOf envW "AAPL") ∧
    (fetch_stock_data envHalf "AAPL" initState).1 = Except.ok (stockOf envHalf "AAPL") ∧
    stockOf envW "AAPL" ≠ stockOf envHalf "AAPL" := by
  refine ⟨fun company => rfl, rfl, rfl, ?_⟩
  intro h
  have hp : (stockOf envW "AAPL").price = (stockOf envHalf "AAPL").price := by
    rw [h]
  have h1 : (stockOf envW "AAPL").price = round2 50 := by
    norm_num [stockOf, envW]
  have h2 : (stockOf envHalf "AAPL").price = round2 275 := by
    norm_num [stockOf, envHalf]
  have r1 : round2 (50 : ℚ) = ((5000 : ℤ) : ℚ) / 100 :=
    round2_eq_of_mul_intCast 50 5000 (by norm_num)
  have r2 : round2 (275 : ℚ) = ((27500 : ℤ) : ℚ) / 100 :=
    round2_eq_of_mul_intCast 275 27500 (by norm_num)
  rw [h1, h2, r1, r2] at hp
  norm_num at hp

/-- Helper: `run_analysis` after a successful agent call prints the five
analysis lines and then runs the keyword branch. -/
theorem run_analysis_of_agent_ok (env : Env) (sym risk rec : String)
    (s₀ s₁ : RunState)
    (h : financial_advisor_agent env sym risk s₀ = (Except.ok rec, s₁)) :
    run_analysis env sym risk s₀ =
      (Except.ok (),
       { sys := s₁.sys, rng := s₁.rng,
         trace := s₁.trace ++ analysisPrints sym s₁.sys rec
                    ++ branchTail sym rec }) := by
  unfold run_analysis
  simp only [pyBind, pyPrint, emit, getSys, pyPure, h, execute_buy_order,
    execute_sell_order, analysisPrints, branchTail, noActionMsg]
  by_cases hb : pyIn "buy" (pyLower rec) <;>
    by_cases hs : pyIn "sell" (pyLower rec) <;>
      simp [hb, hs, pyBind, emit, List.append_assoc]

/-- C1: for every recommendation string returned by
`financial_advisor_agent`, `run_analysis` performs the case-insensitive
substring checks on the lower-cased recommendation: it calls
`execute_buy_order` when `"buy"` occurs, otherwise `execute_sell_order`
when `"sell"` occurs, and otherwise prints the no-action message — the
three cases are exactly the three alternatives of `branchTail`. -/
theorem run_analysis_keyword_branching (env : Env) (sym risk rec : String)
    (s₀ s₁ : RunState)
    (h : financial_advisor_agent env sym risk s₀ = (Except.ok rec, s₁)) :
    run_analysis env sym risk s₀ =
      (Except.ok (),
       { sys := s₁.sys, rng := s₁.rng,
         trace := s₁.trace ++ analysisPrints sym s₁.sys rec
                    ++ branchTail sym rec }) :=
  run_analysis_of_agent_ok env sym risk rec s₀ s₁ h

/-- Witness for C1: at the concrete environment `envW` the chat oracle
recommends `" You should Buy now. "`, and `run_analysis` executes the
buy branch of `branchTail`. -/
theorem run_analysis_keyword_branching_witness :
    financial_advisor_agent envW "AAPL" "moderate" initState =
      (Except.ok "You should Buy now.",
       (financial_advisor_agent envW "AAPL" "moderate" initState).2) ∧
    run_analysis envW "AAPL" "moderate" initState =
      (Except.ok (),
       { sys := (financial_advisor_agent envW "AAPL" "moderate" initState).2.sys,
         rng := (financial_advisor_agent envW "AAPL" "moderate" initState).2.rng,
         trace :=
           (financial_advisor_agent envW "AAPL" "moderate" initState).2.trace
             ++ analysisPrints "AAPL"
                  (financial_advisor_agent envW "AAPL" "moderate" initState).2.sys
                  "You should Buy now."
             ++ branchTail "AAPL" "You should Buy now." }) := by
  have hx : (financial_advisor_agent envW "AAPL" "moderate" initState).1 =
      Except.ok "You should Buy now." := by
    simp only [financial_advisor_agent, fetch_stock_data, fetch_news_articlesM,
      fetch_news_articles, pyMapM, analyze_sentiment, fetch_economic_indicators,
      analyze_market_conditions, generate_investment_recommendation, chatCall,
      readStockData, readNewsSentiment, readEconomicIndicators, setStockData,
      setNewsSentiment, setEconomicIndicators, getSys, randomUniform, nextRand,
      pyBind, pyPure, pyLift, pyThrow, emit, pyPrint, envW, chatW, chatMsgW,
      marketRequest, recommendationRequest, initState]
    norm_num
    decide
  have h : financial_advisor_agent envW "AAPL" "moderate" initState =
      (Except.ok "You should Buy now.",
       (financial_advisor_agent envW "AAPL" "moderate" initState).2) := by
    rw [← hx]
  exact ⟨h, run_analysis_keyword_branching envW "AAPL" "moderate"
    "You should Buy now." initState _ h⟩

/-- Characterization of a successful `financial_advisor_agent` run from
the initial state: the three sentiment calls and the two chat calls must
have succeeded, the recommendation is the stripped first-choice content
of the second chat call, and the final state carries the fetched stock
record, the sentiment average and the indicators, with the eight
external-call events in pipeline order. -/
theorem agent_ok_charac (env : Env) (sym risk rec : String) (s₁ : RunState)
    (h : financial_advisor_agent env sym risk initState = (Except.ok rec, s₁)) :
    ∃ q1 q2 q3 resp1 c1 rest1 resp2 c2 rest2,
      env.polarity (headline1 sym) = Except.ok q1 ∧
      env.polarity (headline2 sym) = Except.ok q2 ∧
      env.polarity (headline3 sym) = Except.ok q3 ∧
      env.chat (marketRequest (stockOf env sym) (sentimentAvg [q1, q2, q3])
        (econOf env)) = Except.ok resp1 ∧
      resp1.choices = c1 :: rest1 ∧
      env.chat (recommendationRequest (pyStrip c1.message.content) risk) =
        Except.ok resp2 ∧
      resp2.choices = c2 :: rest2 ∧
      rec = pyStrip c2.message.content ∧
      s₁ = { sys := { stock_data := some (stockOf env sym),
                      news_sentiment := some (sentimentAvg [q1, q2, q3]),
                      economic_indicators := some (econOf env) },
             rng := 5,
             trace := [Event.fetchStockDataCall sym,
                       Event.fetchNewsArticlesCall sym,
                       Event.analyzeSentimentCall (headline1 sym),
                       Event.analyzeSentimentCall (headline2 sym),
                       Event.analyzeSentimentCall (headline3 sym),
                       Event.fetchEconomicIndicatorsCall,
                       Event.chatCompletionCall (marketRequest (stockOf env sym)
                         (sentimentAvg [q1, q2, q3]) (econOf env)),
                       Event.chatCompletionCall (recommendationRequest
                         (pyStrip c1.message.content) risk)] } := by
  simp only [financial_advisor_agent, fetch_stock_data, fetch_news_articlesM,
    fetch_news_articles, pyMapM, analyze_sentiment, fetch_economic_indicators,
    analyze_market_conditions, generate_investment_recommendation, chatCall,
    readStockData, readNewsSentiment, readEconomicIndicators, setStockData,
    setNewsSentiment, setEconomicIndicators, getSys, randomUniform, nextRand,
    pyBind, pyPure, pyLift, pyThrow, emit, pyPrint, initState] at h
  rcases hp1 : env.polarity (sym ++ " announces new product line") with e1 | q1 <;>
    simp only [hp1] at h
  · simp at h
  rcases hp2 : env.polarity (sym ++ " reports quarterly earnings") with e2 | q2 <;>
    simp only [hp2] at h
  · simp at h
  rcases hp3 : env.polarity (sym ++ " faces regulatory scrutiny") with e3 | q3 <;>
    simp only [hp3] at h
  · simp at h
  simp only [pyPure, pyThrow] at h
  rw [show StockData.mk sym (round2 (50 + (500 - 50) * env.rand 0))
        (round2 (-5 + (5 - (-5)) * env.rand (0 + 1))) = stockOf env sym
      from rfl] at h
  rw [show (ratSum [q1, q2, q3] / (([q1, q2, q3].length : ℕ) : ℚ)) =
      sentimentAvg [q1, q2, q3] from rfl] at h
  rw [show EconomicIndicators.mk (round2 (-2 + (5 - (-2)) * env.rand (0 + 1 + 1)))
        (round2 (3 + (10 - 3) * env.rand (0 + 1 + 1 + 1)))
        (round2 (0 + (5 - 0) * env.rand (0 + 1 + 1 + 1 + 1))) = econOf env
      from rfl] at h
  rcases hc1 : env.chat (marketRequest (stockOf env sym) (sentimentAvg [q1, q2, q3])
      (econOf env)) with e4 | resp1 <;> simp only [hc1] at h
  · simp at h
  rcases hch1 : resp1.choices with _ | ⟨c1, rest1⟩ <;>
    simp only [hch1, pyThrow, pyPure] at h
  · simp at h
  rcases hc2 : env.chat (recommendationRequest (pyStrip c1.message.content) risk)
      with e5 | resp2 <;> simp only [hc2] at h
  · simp at h
  rcases hch2 : resp2.choices with _ | ⟨c2, rest2⟩ <;>
    simp only [hch2, pyThrow, pyPure] at h
  · simp at h
  simp only [Prod.mk.injEq, Except.ok.injEq] at h
  exact ⟨q1, q2, q3, resp1, c1, rest1, resp2, c2, rest2, hp1, hp2, hp3, hc1,
    hch1, hc2, hch2, h.1.symm, h.2.symm⟩

/-- C2: every completed `run_analysis` is the single linear pipeline in
source order — fetch stock data, fetch news, score the three headlines,
fetch economic indicators, market-conditions chat call,
recommendation chat call, the analysis prints, and finally the keyword
branch (whose outcome is the last printed line).  The event trace is
exactly this sequence. -/
theorem run_analysis_pipeline_order (env : Env) (sym risk : String)
    (s₂ : RunState)
    (h : run_analysis env sym risk initState = (Except.ok (), s₂)) :
    ∃ q1 q2 q3 outlook rec,
      s₂.trace =
        [Event.fetchStockDataCall sym,
         Event.fetchNewsArticlesCall sym,
         Event.analyzeSentimentCall (headline1 sym),
         Event.analyzeSentimentCall (headline2 sym),
         Event.analyzeSentimentCall (headline3 sym),
         Event.fetchEconomicIndicatorsCall,
         Event.chatCompletionCall (marketRequest (stockOf env sym)
           (sentimentAvg [q1, q2, q3]) (econOf env)),
         Event.chatCompletionCall (recommendationRequest outlook risk)]
        ++ analysisPrints sym
             { stock_data := some (stockOf env sym),
               news_sentiment := some (sentimentAvg [q1, q2, q3]),
               economic_indicators := some (econOf env) } rec
        ++ branchTail sym rec := by
  rcases hag : financial_advisor_agent env sym risk initState with ⟨res, s₁⟩
  cases res with
  | error e =>
      exfalso
      unfold run_analysis at h
      simp only [pyBind, hag] at h
      simp at h
  | ok rec =>
      have hrun := run_analysis_of_agent_ok env sym risk rec initState s₁ hag
      rw [h] at hrun
      simp only [Prod.mk.injEq, true_and] at hrun
      obtain ⟨q1, q2, q3, resp1, c1, rest1, resp2, c2, rest2, hp1, hp2, hp3,
        hc1, hch1, hc2, hch2, hrec, hs₁⟩ :=
        agent_ok_charac env sym risk rec s₁ hag
      refine ⟨q1, q2, q3, pyStrip c1.message.content, rec, ?_⟩
      rw [hrun, hs₁]

/-- Witness for C2: the concrete run at `envW` completes and its trace
is the pipeline sequence. -/
theorem run_analysis_pipeline_order_witness :
    run_analysis envW "AAPL" "moderate" initState =
      (Except.ok (), (run_analysis envW "AAPL" "moderate" initState).2) ∧
    (∃ q1 q2 q3 outlook rec,
      (run_analysis envW "AAPL" "moderate" initState).2.trace =
        [Event.fetchStockDataCall "AAPL",
         Event.fetchNewsArticlesCall "AAPL",
         Event.analyzeSentimentCall (headline1 "AAPL"),
         Event.analyzeSentimentCall (headline2 "AAPL"),
         Event.analyzeSentimentCall (headline3 "AAPL"),
         Event.fetchEconomicIndicatorsCall,
         Event.chatCompletionCall (marketRequest (stockOf envW "AAPL")
           (sentimentAvg [q1, q2, q3]) (econOf envW)),
         Event.chatCompletionCall (recommendationRequest outlook "moderate")]
        ++ analysisPrints "AAPL"
             { stock_data := some (stockOf envW "AAPL"),
               news_sentiment := some (sentimentAvg [q1, q2, q3]),
               economic_indicators := some (econOf envW) } rec
        ++ branchTail "AAPL" rec) := by
  have h1 : (run_analysis envW "AAPL" "moderate" initState).1 = Except.ok () := rfl
  have h : run_analysis envW "AAPL" "moderate" initState =
      (Except.ok (), (run_analysis envW "AAPL" "moderate" initState).2) := by
    rw [← h1]
  exact ⟨h, run_analysis_pipeline_order envW "AAPL" "moderate" _ h⟩

/-- Counterexample to C3: after a concrete complete `run_analysis`, the
stock record is still held in `self.stock_data` — it is not discarded. -/
theorem stock_data_retained_counterexample :
    (run_analysis envW "AAPL" "moderate" initState).2.sys.stock_data ≠ none := by
  intro hcon
  have hval : (run_analysis envW "AAPL" "moderate" initState).2.sys.stock_data =
      some (stockOf envW "AAPL") := rfl
  rw [hval] at hcon
  exact Option.noConfusion hcon

/-- C3 as amended: the stock quote record consists of exactly the fields
symbol, price and percent change, and it is printed once by
`run_analysis`; however it is retained in `self.stock_data` after
`run_analysis` finishes rather than discarded. -/
theorem stock_record_fields_and_retention (env : Env) (sym risk : String)
    (s₂ : RunState)
    (h : run_analysis env sym risk initState = (Except.ok (), s₂)) :
    ∃ price change,
      s₂.sys.stock_data = some { symbol := sym, price := price, change := change } ∧
      Event.printed ("Stock Data: "
        ++ showStockData (some { symbol := sym, price := price, change := change }))
        ∈ s₂.trace := by
  rcases hag : financial_advisor_agent env sym risk initState with ⟨res, s₁⟩
  cases res with
  | error e =>
      exfalso
      unfold run_analysis at h
      simp only [pyBind, hag] at h
      simp at h
  | ok rec =>
      have hrun := run_analysis_of_agent_ok env sym risk rec initState s₁ hag
      rw [h] at hrun
      simp only [Prod.mk.injEq, true_and] at hrun
      obtain ⟨q1, q2, q3, resp1, c1, rest1, resp2, c2, rest2, hp1, hp2, hp3,
        hc1, hch1, hc2, hch2, hrec, hs₁⟩ :=
        agent_ok_charac env sym risk rec s₁ hag
      refine ⟨(stockOf env sym).price, (stockOf env sym).change, ?_, ?_⟩
      · rw [hrun, hs₁]
        rfl
      · rw [hrun, hs₁]
        simp [analysisPrints]
        exact Or.inr (Or.inl rfl)

/-- Witness for the amended C3 at the concrete environment `envW`. -/
theorem stock_record_fields_and_retention_witness :
    run_analysis envW "AAPL" "moderate" initState =
      (Except.ok (), (run_analysis envW "AAPL" "moderate" initState).2) ∧
    (∃ price change,
      (run_analysis envW "AAPL" "moderate" initState).2.sys.stock_data =
        some { symbol := "AAPL", price := price, change := change } ∧
      Event.printed ("Stock Data: "
        ++ showStockData (some { symbol := "AAPL", price := price, change := change }))
        ∈ (run_analysis envW "AAPL" "moderate" initState).2.trace) := by
  have h1 : (run_analysis envW "AAPL" "moderate" initState).1 = Except.ok () := rfl
  have h : run_analysis envW "AAPL" "moderate" initState =
      (Except.ok (), (run_analysis envW "AAPL" "moderate" initState).2) := by
    rw [← h1]
  exact ⟨h, stock_record_fields_and_retention envW "AAPL" "moderate" _ h⟩

/-- C4: in every completed agent run the value stored in
`self.news_sentiment` is the sum of the polarity scores of the three
headlines returned by `fetch_news_articles` divided by three. -/
theorem news_sentiment_is_average (env : Env) (sym risk rec : String)
    (s₁ : RunState)
    (h : financial_advisor_agent env sym risk initState = (Except.ok rec, s₁)) :
    ∃ q1 q2 q3,
      env.polarity (headline1 sym) = Except.ok q1 ∧
      env.polarity (headline2 sym) = Except.ok q2 ∧
      env.polarity (headline3 sym) = Except.ok q3 ∧
      s₁.sys.news_sentiment = some ((q1 + q2 + q3) / 3) := by
  obtain ⟨q1, q2, q3, resp1, c1, rest1, resp2, c2, rest2, hp1, hp2, hp3, hc1,
    hch1, hc2, hch2, hrec, hs₁⟩ := agent_ok_charac env sym risk rec s₁ h
  refine ⟨q1, q2, q3, hp1, hp2, hp3, ?_⟩
  rw [hs₁]
  have hval : sentimentAvg [q1, q2, q3] = (q1 + q2 + q3) / 3 := by
    simp [sentimentAvg, ratSum]
    ring_nf
  simp [hval]

/-- Witness for C4 at the concrete environment `envW` (all polarities
0, so the stored average is 0/3). -/
theorem news_sentiment_is_average_witness :
    financial_advisor_agent envW "AAPL" "moderate" initState =
      (Except.ok "You should Buy now.",
       (financial_advisor_agent envW "AAPL" "moderate" initState).2) ∧
    (∃ q1 q2 q3,
      envW.polarity (headline1 "AAPL") = Except.ok q1 ∧
      envW.polarity (headline2 "AAPL") = Except.ok q2 ∧
      envW.polarity (headline3 "AAPL") = Except.ok q3 ∧
      (financial_advisor_agent envW "AAPL" "moderate" initState).2.sys.news_sentiment =
        some ((q1 + q2 + q3) / 3)) := by
  have h1 : (financial_advisor_agent envW "AAPL" "moderate" initState).1 =
      Except.ok "You should Buy now." := rfl
  have h : financial_advisor_agent envW "AAPL" "moderate" initState =
      (Except.ok "You should Buy now.",
       (financial_advisor_agent envW "AAPL" "moderate" initState).2) := by
    rw [← h1]
  exact ⟨h, news_sentiment_is_average envW "AAPL" "moderate" _ _ h⟩

/-- C5: both LLM methods invoke the chat-completion API with the model
identifier, a messages list holding exactly one user-role message, and
the token caps 150 (`analyze_market_conditions`) and 200
(`generate_investment_recommendation`); on success each returns the
stripped free-form text content of the first choice of the response,
having recorded exactly that request in the trace. -/
theorem chat_api_call_shape (env : Env) (sd : StockData) (sent : ℚ)
    (ei : EconomicIndicators) (outlook risk : String) :
    ((marketRequest sd sent ei).model = "gpt-4-0125-preview" ∧
     (marketRequest sd sent ei).messages.map ChatMessage.role = ["user"] ∧
     (marketRequest sd sent ei).messages.length = 1 ∧
     (marketRequest sd sent ei).max_tokens = 150) ∧
    ((recommendationRequest outlook risk).model = "gpt-4-0125-preview" ∧
     (recommendationRequest outlook risk).messages.map ChatMessage.role = ["user"] ∧
     (recommendationRequest outlook risk).messages.length = 1 ∧
     (recommendationRequest outlook risk).max_tokens = 200) ∧
    (∀ s resp c rest, env.chat (marketRequest sd sent ei) = Except.ok resp →
       resp.choices = c :: rest →
       analyze_market_conditions env sd sent ei s =
         (Except.ok (pyStrip c.message.content),
          { s with trace := s.trace
              ++ [Event.chatCompletionCall (marketRequest sd sent ei)] })) ∧
    (∀ s resp c rest,
       env.chat (recommendationRequest outlook risk) = Except.ok resp →
       resp.choices = c :: rest →
       generate_investment_recommendation env outlook risk s =
         (Except.ok (pyStrip c.message.content),
          { s with trace := s.trace
              ++ [Event.chatCompletionCall (recommendationRequest outlook risk)] })) := by
  refine ⟨⟨rfl, rfl, rfl, rfl⟩, ⟨rfl, rfl, rfl, rfl⟩, ?_, ?_⟩
  · intro s resp c rest hc hch
    unfold analyze_market_conditions chatCall
    simp only [pyBind, emit, pyLift, pyPure, pyThrow, hc, hch]
  · intro s resp c rest hc hch
    unfold generate_investment_recommendation chatCall
    simp only [pyBind, emit, pyLift, pyPure, pyThrow, hc, hch]

/-- Witness for C5: the concrete oracle `chatW` returns one choice, and
`analyze_market_conditions` returns its stripped content. -/
theorem chat_api_call_shape_witness :
    envW.chat (marketRequest (stockOf envW "AAPL") 0 (econOf envW)) =
      Except.ok (ChatResponse.mk [ChatChoice.mk
        (chatMsgW (marketRequest (stockOf envW "AAPL") 0 (econOf envW)))]) ∧
    analyze_market_conditions envW (stockOf envW "AAPL") 0 (econOf envW) initState =
      (Except.ok (pyStrip
        (chatMsgW (marketRequest (stockOf envW "AAPL") 0 (econOf envW))).content),
       { initState with trace := [Event.chatCompletionCall
           (marketRequest (stockOf envW "AAPL") 0 (econOf envW))] }) := by
  refine ⟨rfl, ?_⟩
  exact (chat_api_call_shape envW (stockOf envW "AAPL") 0 (econOf envW)
    "outlook" "moderate").2.2.1 initState
    (ChatResponse.mk [ChatChoice.mk
      (chatMsgW (marketRequest (stockOf envW "AAPL") 0 (econOf envW)))])
    (ChatChoice.mk (chatMsgW (marketRequest (stockOf envW "AAPL") 0 (econOf envW))))
    [] rfl rfl

/-- Strings differing in their first two characters are different. -/
theorem ne_of_take2 (a b : String) (h : a.data.take 2 ≠ b.data.take 2) :
    a ≠ b := fun he => h (by rw [he])

/-- The first two characters of a list starting with two explicit
characters followed by anything. -/
theorem take_two_of_append (a b : Char) (l r : List Char) :
    ((a :: b :: l) ++ r).take 2 = [a, b] := rfl

/-- C8: when the recommendation contains both `"buy"` and `"sell"`
(case-insensitively), the run takes exactly the buy branch:
`execute_buy_order` is called, `execute_sell_order` is never called, and
the no-action message is never printed — because the `"buy"` check is
tested first. -/
theorem buy_branch_takes_precedence (env : Env) (sym risk rec : String)
    (s₁ : RunState)
    (h : financial_advisor_agent env sym risk initState = (Except.ok rec, s₁))
    (hb : pyIn "buy" (pyLower rec) = true)
    (hs : pyIn "sell" (pyLower rec) = true) :
    branchTail sym rec =
      [Event.executeBuyOrderCall sym,
       Event.printed ("Executing buy order for " ++ sym)] ∧
    ∃ s₂, run_analysis env sym risk initState = (Except.ok (), s₂) ∧
      Event.executeBuyOrderCall sym ∈ s₂.trace ∧
      (∀ a, Event.executeSellOrderCall a ∉ s₂.trace) ∧
      Event.printed noActionMsg ∉ s₂.trace := by
  have hbt : branchTail sym rec =
      [Event.executeBuyOrderCall sym,
       Event.printed ("Executing buy order for " ++ sym)] := by
    simp [branchTail, hb]
  have hrun := run_analysis_of_agent_ok env sym risk rec initState s₁ h
  obtain ⟨q1, q2, q3, resp1, c1, rest1, resp2, c2, rest2, hp1, hp2, hp3, hc1,
    hch1, hc2, hch2, hrec, hs₁⟩ := agent_ok_charac env sym risk rec s₁ h
  refine ⟨hbt, _, hrun, ?_, ?_, ?_⟩
  · rw [hs₁]
    simp [analysisPrints, hbt]
  · intro a
    rw [hs₁]
    simp [analysisPrints, hbt]
  · rw [hs₁]
    intro hcon
    simp only [analysisPrints, hbt, List.mem_append, List.mem_cons,
      List.not_mem_nil, or_false, or_assoc, Event.printed.injEq] at hcon
    rcases hcon with hcon | hcon | hcon | hcon | hcon | hcon | hcon | hcon |
      hcon | hcon | hcon | hcon | hcon | hcon | hcon <;>
      first
        | exact Event.noConfusion hcon
        | exact absurd hcon (ne_of_take2 noActionMsg _
            (by simp only [String.data_append, List.append_assoc,
              take_two_of_append]; decide))

/-- Witness for C8: at `envBS` the recommendation mentions both `Buy`
and `Sell`, and only the buy branch runs. -/
theorem buy_branch_takes_precedence_witness :
    financial_advisor_agent envBS "AAPL" "moderate" initState =
      (Except.ok "First Buy, then Sell.",
       (financial_advisor_agent envBS "AAPL" "moderate" initState).2) ∧
    pyIn "buy" (pyLower "First Buy, then Sell.") = true ∧
    pyIn "sell" (pyLower "First Buy, then Sell.") = true ∧
    (branchTail "AAPL" "First Buy, then Sell." =
      [Event.executeBuyOrderCall "AAPL",
       Event.printed ("Executing buy order for " ++ "AAPL")] ∧
     ∃ s₂, run_analysis envBS "AAPL" "moderate" initState = (Except.ok (), s₂) ∧
       Event.executeBuyOrderCall "AAPL" ∈ s₂.trace ∧
       (∀ a, Event.executeSellOrderCall a ∉ s₂.trace) ∧
       Event.printed noActionMsg ∉ s₂.trace) := by
  have h1 : (financial_advisor_agent envBS "AAPL" "moderate" initState).1 =
      Except.ok "First Buy, then Sell." := rfl
  have h : financial_advisor_agent envBS "AAPL" "moderate" initState =
      (Except.ok "First Buy, then Sell.",
       (financial_advisor_agent envBS "AAPL" "moderate" initState).2) := by
    rw [← h1]
  exact ⟨h, by decide, by decide,
    buy_branch_takes_precedence envBS "AAPL" "moderate" "First Buy, then Sell."
      _ h (by decide) (by decide)⟩

/-- Characterization of a failed `financial_advisor_agent` run from the
initial state: the uncaught exception is one raised by the sentiment
library, by the chat API, or the `IndexError` from an empty choices
list, and at the moment of failure no line has been printed and no
order has been executed. -/
theorem agent_error_charac (env : Env) (sym risk : String) (e : PyError)
    (s₁ : RunState)
    (h : financial_advisor_agent env sym risk initState = (Except.error e, s₁)) :
    ((∃ t, env.polarity t = Except.error e) ∨
     (∃ req, env.chat req = Except.error e) ∨ e = indexErr) ∧
    (∀ line, Event.printed line ∉ s₁.trace) ∧
    (∀ a, Event.executeBuyOrderCall a ∉ s₁.trace) ∧
    (∀ a, Event.executeSellOrderCall a ∉ s₁.trace) := by
  simp only [financial_advisor_agent, fetch_stock_data, fetch_news_articlesM,
    fetch_news_articles, pyMapM, analyze_sentiment, fetch_economic_indicators,
    analyze_market_conditions, generate_investment_recommendation, chatCall,
    readStockData, readNewsSentiment, readEconomicIndicators, setStockData,
    setNewsSentiment, setEconomicIndicators, getSys, randomUniform, nextRand,
    pyBind, pyPure, pyLift, pyThrow, emit, pyPrint, initState] at h
  rcases hp1 : env.polarity (sym ++ " announces new product line") with e1 | q1 <;>
    simp only [hp1] at h
  · simp only [Prod.mk.injEq, Except.error.injEq] at h
    obtain ⟨rfl, hs⟩ := h
    refine ⟨Or.inl ⟨_, hp1⟩, ?_, ?_, ?_⟩ <;> intro x <;> rw [← hs] <;> simp
  rcases hp2 : env.polarity (sym ++ " reports quarterly earnings") with e2 | q2 <;>
    simp only [hp2] at h
  · simp only [Prod.mk.injEq, Except.error.injEq] at h
    obtain ⟨rfl, hs⟩ := h
    refine ⟨Or.inl ⟨_, hp2⟩, ?_, ?_, ?_⟩ <;> intro x <;> rw [← hs] <;> simp
  rcases hp3 : env.polarity (sym ++ " faces regulatory scrutiny") with e3 | q3 <;>
    simp only [hp3] at h
  · simp only [Prod.mk.injEq, Except.error.injEq] at h
    obtain ⟨rfl, hs⟩ := h
    refine ⟨Or.inl ⟨_, hp3⟩, ?_, ?_, ?_⟩ <;> intro x <;> rw [← hs] <;> simp
  simp only [pyPure, pyThrow] at h
  rw [show StockData.mk sym (round2 (50 + (500 - 50) * env.rand 0))
        (round2 (-5 + (5 - (-5)) * env.rand (0 + 1))) = stockOf env sym
      from rfl] at h
  rw [show (ratSum [q1, q2, q3] / (([q1, q2, q3].length : ℕ) : ℚ)) =
      sentimentAvg [q1, q2, q3] from rfl] at h
  rw [show EconomicIndicators.mk (round2 (-2 + (5 - (-2)) * env.rand (0 + 1 + 1)))
        (round2 (3 + (10 - 3) * env.rand (0 + 1 + 1 + 1)))
        (round2 (0 + (5 - 0) * env.rand (0 + 1 + 1 + 1 + 1))) = econOf env
      from rfl] at h
  rcases hc1 : env.chat (marketRequest (stockOf env sym) (sentimentAvg [q1, q2, q3])
      (econOf env)) with e4 | resp1 <;> simp only [hc1] at h
  · simp only [Prod.mk.injEq, Except.error.injEq] at h
    obtain ⟨rfl, hs⟩ := h
    refine ⟨Or.inr (Or.inl ⟨_, hc1⟩), ?_, ?_, ?_⟩ <;> intro x <;> rw [← hs] <;> simp
  rcases hch1 : resp1.choices with _ | ⟨c1, rest1⟩ <;>
    simp only [hch1, pyThrow, pyPure] at h
  · simp only [Prod.mk.injEq, Except.error.injEq] at h
    obtain ⟨rfl, hs⟩ := h
    refine ⟨Or.inr (Or.inr rfl), ?_, ?_, ?_⟩ <;> intro x <;> rw [← hs] <;> simp
  rcases hc2 : env.chat (recommendationRequest (pyStrip c1.message.content) risk)
      with e5 | resp2 <;> simp only [hc2] at h
  · simp only [Prod.mk.injEq, Except.error.injEq] at h
    obtain ⟨rfl, hs⟩ := h
    refine ⟨Or.inr (Or.inl ⟨_, hc2⟩), ?_, ?_, ?_⟩ <;> intro x <;> rw [← hs] <;> simp
  rcases hch2 : resp2.choices with _ | ⟨c2, rest2⟩ <;>
    simp only [hch2, pyThrow, pyPure] at h
  · simp only [Prod.mk.injEq, Except.error.injEq] at h
    obtain ⟨rfl, hs⟩ := h
    refine ⟨Or.inr (Or.inr rfl), ?_, ?_, ?_⟩ <;> intro x <;> rw [← hs] <;> simp
  simp at h

/-- C6: no exception is caught anywhere: whenever `run_analysis` fails,
the escaped exception is exactly one raised by the sentiment library or
the chat API (or the `IndexError` from an empty choices list), and no
line was printed and no buy or sell order executed — no fallback path
runs.  Conversely, an exception in the very first sentiment call
propagates unchanged out of `run_analysis`, aborting everything after
the three recorded calls. -/
theorem errors_propagate_uncaught (env : Env) (sym risk : String) :
    (∀ e s₂, run_analysis env sym risk initState = (Except.error e, s₂) →
      ((∃ t, env.polarity t = Except.error e) ∨
       (∃ req, env.chat req = Except.error e) ∨ e = indexErr) ∧
      (∀ line, Event.printed line ∉ s₂.trace) ∧
      (∀ a, Event.executeBuyOrderCall a ∉ s₂.trace) ∧
      (∀ a, Event.executeSellOrderCall a ∉ s₂.trace)) ∧
    (∀ e₁, env.polarity (headline1 sym) = Except.error e₁ →
      run_analysis env sym risk initState =
        (Except.error e₁,
         { sys := { stock_data := some (stockOf env sym),
                    news_sentiment := none, economic_indicators := none },
           rng := 2,
           trace := [Event.fetchStockDataCall sym,
                     Event.fetchNewsArticlesCall sym,
                     Event.analyzeSentimentCall (headline1 sym)] })) := by
  constructor
  · intro e s₂ h
    rcases hag : financial_advisor_agent env sym risk initState with ⟨res, s₁⟩
    cases res with
    | error e' =>
        have : run_analysis env sym risk initState = (Except.error e', s₁) := by
          unfold run_analysis
          simp only [pyBind, hag]
        rw [this] at h
        simp only [Prod.mk.injEq, Except.error.injEq] at h
        obtain ⟨rfl, rfl⟩ := h
        exact agent_error_charac env sym risk e' s₁ hag
    | ok rec =>
        exfalso
        have := run_analysis_of_agent_ok env sym risk rec initState s₁ hag
        rw [this] at h
        simp at h
  · intro e₁ hp
    unfold run_analysis financial_advisor_agent fetch_stock_data
      fetch_news_articlesM fetch_news_articles pyMapM analyze_sentiment
    simp only [headline1] at hp
    simp only [pyBind, pyPure, pyLift, pyThrow, emit, pyPrint, getSys,
      setStockData, setNewsSentiment, setEconomicIndicators, randomUniform,
      nextRand, initState, hp]
    rfl

/-- Witness for C6 at the concrete environment `envErr`, whose sentiment
library raises `sentErr` on every call. -/
theorem errors_propagate_uncaught_witness :
    run_analysis envErr "AAPL" "moderate" initState =
      (Except.error sentErr, (run_analysis envErr "AAPL" "moderate" initState).2) ∧
    ((∃ t, envErr.polarity t = Except.error sentErr) ∨
     (∃ req, envErr.chat req = Except.error sentErr) ∨ sentErr = indexErr) ∧
    (∀ line, Event.printed line ∉ (run_analysis envErr "AAPL" "moderate" initState).2.trace) ∧
    (∀ a, Event.executeBuyOrderCall a ∉ (run_analysis envErr "AAPL" "moderate" initState).2.trace) ∧
    (∀ a, Event.executeSellOrderCall a ∉ (run_analysis envErr "AAPL" "moderate" initState).2.trace) := by
  have h1 : (run_analysis envErr "AAPL" "moderate" initState).1 =
      Except.error sentErr := rfl
  have h : run_analysis envErr "AAPL" "moderate" initState =
      (Except.error sentErr, (run_analysis envErr "AAPL" "moderate" initState).2) := by
    rw [← h1]
  exact ⟨h, (errors_propagate_uncaught envErr "AAPL" "moderate").1 sentErr _ h⟩
